import Mathlib

/-
Verification of the `migrate` command of the cmt container-migration tool
(src/migrate/migrate.go) against its natural-language specification.

The Go code is shallowly embedded:
  * the orchestrator (Command.Action, lines 32-129) is embedded as the list
    of external-effect events it issues, in program order, together with a
    fail-fast interpreter that models `log.Fatal` aborting at the first
    failing remote command;
  * the completion monitor (lines 131-163) is embedded as a small-step
    transition system over the `sync.WaitGroup` counter and the two result
    variables, driven by an arbitrary interleaving of the process-wait
    goroutine and the liveness-poll goroutine;
  * remote command errors are an opaque type `Err`; Go's `error` value is
    `Option Err` with `none` for nil.
-/

namespace Cmt

/-- The two validated remote executors of one migration: `src` and `dst`
(migrate.go line 37). -/
inductive Host
  | src
  | dst
  deriving DecidableEq

/-- One invocation of `cmd.Run`/`cmd.Start` on a host: the command name and
its argument list exactly as passed in the Go source. -/
structure CmdCall where
  host : Host
  command : String
  args : List String
  deriving DecidableEq

/-- The characters after the last `/` of a character list (`acc` holds the
characters of the current segment). -/
def lastSegmentAux : List Char → List Char → List Char
  | [], acc => acc
  | c :: cs, acc => if c = '/' then lastSegmentAux cs [] else lastSegmentAux cs (acc ++ [c])

/-- Embedding of `getContainerId` (migrate.go lines 220-223): `filepath.Split` splits the
path at its final separator and the file part — everything after the last
`/` — is the container id. -/
def getContainerId (path : String) : String :=
  ⟨lastSegmentAux path.data []⟩

/-- The command issued by `prepareDir` (migrate.go line 214):
`cmd.Run("mkdir", "-p", path)`. -/
def prepareDirCall (h : Host) (path : String) : CmdCall :=
  ⟨h, "mkdir", ["-p", path]⟩

/-- Argument list built by `checkpoint` (migrate.go lines 203-206):
`--pre-dump` is appended exactly when `predump` is true. -/
def checkpointArgs (containerId imagesPath : String) (predump : Bool) : List String :=
  ["runc", "--id", containerId, "checkpoint", "--image-path", imagesPath] ++
    (if predump then ["--pre-dump"] else [])

/-- The command issued by `checkpoint` (migrate.go line 207):
`cmd.Run("sudo", args...)`. -/
def checkpointCall (h : Host) (containerId imagesPath : String) (predump : Bool) : CmdCall :=
  ⟨h, "sudo", checkpointArgs containerId imagesPath predump⟩

/-- The command issued by `prepareTar` (migrate.go line 195):
`cmd.Run("sudo", "tar", "-czf", tarFile, "-C", workDir+"/", ".")`. -/
def prepareTarCall (h : Host) (tarFile workDir : String) : CmdCall :=
  ⟨h, "sudo", ["tar", "-czf", tarFile, "-C", workDir ++ "/", "."]⟩

/-- The command issued by `unpackTar` (migrate.go line 188):
`cmd.Run("sudo", "tar", "-C", workDir, "-xvzf", tarFile)`. -/
def unpackTarCall (h : Host) (tarFile workDir : String) : CmdCall :=
  ⟨h, "sudo", ["tar", "-C", workDir, "-xvzf", tarFile]⟩

/-- The inline generation-1 checkpoint of pre-dump mode (migrate.go line 72):
`src.Run("sudo", "runc", "--id", containerId, "checkpoint", "--image-path",
imagesPath, "--prev-images-dir", predumpPath)`. -/
def finalCheckpointCall (containerId imagesPath prevImagesDir : String) : CmdCall :=
  ⟨Host.src, "sudo",
    ["runc", "--id", containerId, "checkpoint", "--image-path", imagesPath,
     "--prev-images-dir", prevImagesDir]⟩

/-- The non-blocking restore (migrate.go lines 94 and 124):
`dst.Start("sudo", "runc", "--id", containerId, "restore", "--image-path",
dstImagesPath, "--config-file", configFilePath, "--runtime-file",
runtimeFilePath)`. -/
def restoreCall (containerId imagesPath configFile runtimeFile : String) : CmdCall :=
  ⟨Host.dst, "sudo",
    ["runc", "--id", containerId, "restore", "--image-path", imagesPath,
     "--config-file", configFile, "--runtime-file", runtimeFile]⟩

/-- One externally visible step of `Command.Action`, in program order:
a blocking remote command (`run`), an scp transfer from the source host to
the destination host (`scp`), reading the downtime clock start
(`clockStart`, `migrateStart = time.Now()`), launching the non-blocking
restore (`start`), and entering the completion-monitor section (`monitor`,
lines 131-163). -/
inductive Event
  | run (c : CmdCall)
  | scp (srcFile dstDir : String)
  | clockStart
  | start (c : CmdCall)
  | monitor
  deriving DecidableEq

/-- The sequence of events `Command.Action` issues, by branch
(migrate.go lines 46-129 for `pre-dump`, lines 99-129 otherwise), followed
by the monitor section.  Paths are built with `fmt.Sprintf` exactly as in
the source. -/
def migrateEvents : Bool → String → String → List Event
  | true, srcPath, dstPath =>
      [Event.run (prepareDirCall Host.src (srcPath ++ "/images/0")),
       Event.run (checkpointCall Host.src (getContainerId srcPath) (srcPath ++ "/images/0") true),
       Event.run (prepareTarCall Host.src (srcPath ++ "/predump.tar.gz") (srcPath ++ "/images/0")),
       Event.run (prepareDirCall Host.dst (dstPath ++ "/images/0")),
       Event.scp (srcPath ++ "/predump.tar.gz") (dstPath ++ "/images/0"),
       Event.run (unpackTarCall Host.dst (dstPath ++ "/images/0/predump.tar.gz") (dstPath ++ "/images/0")),
       Event.clockStart,
       Event.run (finalCheckpointCall (getContainerId srcPath) (srcPath ++ "/images/1") (srcPath ++ "/images/0")),
       Event.run (prepareTarCall Host.src (srcPath ++ "/dump.tar.gz") (srcPath ++ "/images/1")),
       Event.run (prepareDirCall Host.dst (dstPath ++ "/images/1")),
       Event.scp (srcPath ++ "/dump.tar.gz") (dstPath ++ "/images/1"),
       Event.run (unpackTarCall Host.dst (dstPath ++ "/images/1/dump.tar.gz") (dstPath ++ "/images/1")),
       Event.start (restoreCall (getContainerId srcPath) (dstPath ++ "/images/1")
         (dstPath ++ "/config.json") (dstPath ++ "/runtime.json")),
       Event.monitor]
  | false, srcPath, dstPath =>
      [Event.run (prepareDirCall Host.src (srcPath ++ "/images")),
       Event.clockStart,
       Event.run (checkpointCall Host.src (getContainerId srcPath) (srcPath ++ "/images") false),
       Event.run (prepareTarCall Host.src (srcPath ++ "/dump.tar.gz") (srcPath ++ "/images")),
       Event.run (prepareDirCall Host.dst (dstPath ++ "/images")),
       Event.scp (srcPath ++ "/dump.tar.gz") (dstPath ++ "/images"),
       Event.run (unpackTarCall Host.dst (dstPath ++ "/images/dump.tar.gz") (dstPath ++ "/images")),
       Event.start (restoreCall (getContainerId srcPath) (dstPath ++ "/images")
         (dstPath ++ "/config.json") (dstPath ++ "/runtime.json")),
       Event.monitor]

/-- Result of one event under an environment `env` deciding the outcome of
every external command: `clockStart` and `monitor` are internal and cannot
fail; `run`, `scp` and `start` fail exactly when the environment says so. -/
def execRes {Err : Type} (env : Event → Option Err) : Event → Option Err
  | Event.run c => env (Event.run c)
  | Event.scp a b => env (Event.scp a b)
  | Event.start c => env (Event.start c)
  | Event.clockStart => none
  | Event.monitor => none

/-- Fail-fast execution of the event list (`log.Fatal` on every error path
of migrate.go aborts the process): returns the events that completed
successfully, in order, and the aborting event with its error, if any.
Nothing after a failing event executes. -/
def execEvents {Err : Type} (env : Event → Option Err) : List Event → List Event × Option (Event × Err)
  | [] => ([], none)
  | e :: es =>
      match execRes env e with
      | some err => ([], some (e, err))
      | none => ((execEvents env es).1.cons e, (execEvents env es).2)

/-- The events that were actually issued: the successfully completed ones
followed by the aborting one, if any. -/
def issuedEvents {Err : Type} (env : Event → Option Err) (l : List Event) : List Event :=
  (execEvents env l).1 ++
    (match (execEvents env l).2 with
     | some ee => [ee.1]
     | none => [])

/-- Embedding of `isRunning` (migrate.go lines 177-184): it stats the runtime's running
state marker for the container on the destination and returns `true` when
the stat returns a NON-nil error.  `dstStat` models
`dstCmd.Run("stat", path)`, giving the error outcome of the remote stat of
each path. -/
def isRunning {Err : Type} (containerId : String) (dstStat : String → Option Err) : Bool :=
  match dstStat ("/var/run/opencontainer/containers/" ++ containerId) with
  | some _ => true
  | none => false

/-- State of the completion-monitor section (migrate.go lines 131-163):
the two shared result variables, the `sync.WaitGroup` counter (after
`wg.Add(1)` it starts at 1; `wg.Done` decrements it and, as in Go's sync
package, a negative counter is a panic), and the control points of the
liveness-poll goroutine (whether the ticker was created at line 149,
whether `ticker.Stop()` of line 158 ran, whether the goroutine reached its
`wg.Done`). -/
structure MonState (Err : Type) where
  restoreSucceed : Bool
  restoreError : Option Err
  wgCounter : Int
  wgPanicked : Bool
  procDone : Bool
  tickerCreated : Bool
  tickerStopped : Bool
  pollResolved : Bool
  deriving DecidableEq

/-- State right after `wg.Add(1)` (migrate.go lines 131-134). -/
def initMonState (Err : Type) : MonState Err :=
  ⟨false, none, 1, false, false, false, false, false⟩

/-- Model of `wg.Done()`: decrement the counter; a negative counter panics
("sync: negative WaitGroup counter"). -/
def wgDone {Err : Type} (s : MonState Err) : MonState Err :=
  { s with wgCounter := s.wgCounter - 1,
           wgPanicked := s.wgPanicked || decide (s.wgCounter - 1 < 0) }

/-- An observable step of one of the two monitor goroutines:
`procExit e` is the process-wait goroutine's `restoreCmd.Wait()` returning
the error `e` (lines 136-139); `pollCheck b` is one evaluation of
`isRunning(containerId, dst)` returning `b` by the liveness-poll goroutine
(the immediate check of line 144 if the ticker does not exist yet, a ticker
iteration of lines 151-157 otherwise). -/
inductive MonAction (Err : Type)
  | procExit (e : Option Err)
  | pollCheck (running : Bool)
  deriving DecidableEq

/-- Small-step semantics of the monitor section.  `procExit` stores the
`Wait` error and signals the wait group (lines 137-138); a `pollCheck`
before the ticker exists either resolves success immediately (lines
144-148) or creates the ticker (line 149); a ticker-iteration `pollCheck`
that sees the container running breaks out of the loop, stops the ticker
and signals the wait group (lines 151-159), and one that does not leaves
the loop running. -/
def monStep {Err : Type} (s : MonState Err) : MonAction Err → MonState Err
  | MonAction.procExit e =>
      if s.procDone then s
      else wgDone { s with restoreError := e, procDone := true }
  | MonAction.pollCheck running =>
      if s.pollResolved then s
      else if s.tickerCreated then
        if running then
          wgDone { s with restoreSucceed := true, tickerStopped := true, pollResolved := true }
        else s
      else
        if running then
          wgDone { s with restoreSucceed := true, pollResolved := true }
        else { s with tickerCreated := true }

/-- The monitor state after an interleaving `tr` of goroutine steps,
starting from `initMonState`. -/
def monRun {Err : Type} (tr : List (MonAction Err)) : MonState Err :=
  tr.foldl monStep (initMonState Err)

/-- What the migration reports after `wg.Wait()` returns
(migrate.go lines 165-172): success when `restoreSucceed` is set, failure
with `restoreError` as the cause otherwise. -/
structure MigrationOutcome (Err : Type) where
  succeeded : Bool
  failureCause : Option Err
  deriving DecidableEq

/-- Outcome read from a monitor state (lines 167-172). -/
def monOutcome {Err : Type} (s : MonState Err) : MigrationOutcome Err :=
  ⟨s.restoreSucceed, if s.restoreSucceed then none else s.restoreError⟩

/-- Checkpoint invocations among the events: a `cmd.Run` whose argument
list is `runc ... checkpoint ...` (both the `checkpoint` helper and the
inline generation-1 call of line 72 have this shape). -/
def isCheckpointRun : Event → Bool
  | Event.run ⟨_, _, "runc" :: _ :: _ :: "checkpoint" :: _⟩ => true
  | _ => false

/-- Archive steps: the `tar -czf` command of `prepareTar` (line 195). -/
def isArchiveRun : Event → Bool
  | Event.run ⟨_, _, "tar" :: "-czf" :: _⟩ => true
  | _ => false

/-- Unpack steps: the `tar -C ... -xvzf ...` command of `unpackTar`
(line 188). -/
def isUnpackRun : Event → Bool
  | Event.run ⟨_, _, "tar" :: "-C" :: _⟩ => true
  | _ => false

/-- Transfer steps: `cmd.Scp` calls. -/
def isTransfer : Event → Bool
  | Event.scp _ _ => true
  | _ => false

/-- The downtime-clock start `migrateStart = time.Now()`. -/
def isClockStart : Event → Bool
  | Event.clockStart => true
  | _ => false

/-- Invariant of the monitor under schedules in which the liveness poll
never observes the container running and every process exit carries the
error `e`: the success flag is never set, the poll goroutine never signals,
nothing panics, and the wait group is either still armed (process not yet
exited, no error stored) or released exactly once with `e` stored. -/
def MonInv {Err : Type} (e : Option Err) (s : MonState Err) : Prop :=
  s.restoreSucceed = false ∧ s.pollResolved = false ∧ s.wgPanicked = false ∧
    ((s.procDone = false ∧ s.wgCounter = 1 ∧ s.restoreError = none) ∨
     (s.procDone = true ∧ s.wgCounter = 0 ∧ s.restoreError = e))

/-- Unfolding `execEvents` at a failing head event. -/
theorem execEvents_cons_some {Err : Type} (env : Event → Option Err) (e : Event) (es : List Event)
    (err : Err) (hres : execRes env e = some err) :
    execEvents env (e :: es) = ([], some (e, err)) := by
  simp only [execEvents, hres]

/-- Unfolding `execEvents` at a succeeding head event. -/
theorem execEvents_cons_none {Err : Type} (env : Event → Option Err) (e : Event) (es : List Event)
    (hres : execRes env e = none) :
    execEvents env (e :: es) = (e :: (execEvents env es).1, (execEvents env es).2) := by
  simp only [execEvents, hres, List.cons]

/-- The completed events are an initial segment of the planned list:
execution follows the program order of `Command.Action`. -/
theorem execEvents_fst_take {Err : Type} (env : Event → Option Err) :
    ∀ l : List Event, (execEvents env l).1 = l.take (execEvents env l).1.length := by
  intro l
  induction l with
  | nil => rfl
  | cons e es ih =>
      cases hres : execRes env e with
      | some err => rw [execEvents_cons_some env e es err hres]; rfl
      | none =>
          rw [execEvents_cons_none env e es hres]
          simp only [List.length_cons, List.take_succ_cons]
          exact congrArg (List.cons e) ih

/-- Every completed event ran without error. -/
theorem execEvents_fst_succeeds {Err : Type} (env : Event → Option Err) :
    ∀ (l : List Event) e, e ∈ (execEvents env l).1 → execRes env e = none := by
  intro l
  induction l with
  | nil => intro e he; simp [execEvents] at he
  | cons a es ih =>
      intro e he
      cases hres : execRes env a with
      | some err =>
          rw [execEvents_cons_some env a es err hres] at he
          simp at he
      | none =>
          rw [execEvents_cons_none env a es hres] at he
          rcases List.mem_cons.mp he with he | he
          · exact he ▸ hres
          · exact ih e he

/-- Unfolding `issuedEvents` at a failing head event. -/
theorem issuedEvents_cons_some {Err : Type} (env : Event → Option Err) (e : Event) (es : List Event)
    (err : Err) (hres : execRes env e = some err) :
    issuedEvents env (e :: es) = [e] := by
  simp [issuedEvents, execEvents_cons_some env e es err hres]

/-- Unfolding `issuedEvents` at a succeeding head event. -/
theorem issuedEvents_cons_none {Err : Type} (env : Event → Option Err) (e : Event) (es : List Event)
    (hres : execRes env e = none) :
    issuedEvents env (e :: es) = e :: issuedEvents env es := by
  simp only [issuedEvents, execEvents_cons_none env e es hres, List.cons_append]

/-- The issued events are an initial segment of the planned list: nothing
after the aborting event is ever issued. -/
theorem issuedEvents_take {Err : Type} (env : Event → Option Err) :
    ∀ l : List Event, issuedEvents env l = l.take (issuedEvents env l).length := by
  intro l
  induction l with
  | nil => rfl
  | cons e es ih =>
      cases hres : execRes env e with
      | some err => rw [issuedEvents_cons_some env e es err hres]; rfl
      | none =>
          rw [issuedEvents_cons_none env e es hres]
          simp only [List.length_cons, List.take_succ_cons]
          exact congrArg (List.cons e) ih

/-- The issued events are the completed ones, possibly followed by the
single aborting event. -/
theorem issuedEvents_decomp {Err : Type} (env : Event → Option Err) (l : List Event) :
    issuedEvents env l = (execEvents env l).1 ∨
      issuedEvents env l = (execEvents env l).1 ++ [((execEvents env l).2.map Prod.fst).getD Event.monitor] := by
  cases h2 : (execEvents env l).2 with
  | none => left; simp [issuedEvents, h2]
  | some ee => right; simp [issuedEvents, h2]

/-- When execution aborts, the planned list decomposes as the successfully
completed prefix, then the aborting event, then the steps that never ran —
and the aborting event failed with exactly the reported error. -/
theorem execEvents_abort_decomp {Err : Type} (env : Event → Option Err) :
    ∀ (l : List Event) (e : Event) (err : Err),
      (execEvents env l).2 = some (e, err) →
      l = (execEvents env l).1 ++ e :: l.drop ((execEvents env l).1.length + 1) ∧
      execRes env e = some err := by
  intro l
  induction l with
  | nil => intro e err h; simp [execEvents] at h
  | cons a es ih =>
      intro e err h
      cases hres : execRes env a with
      | some err2 =>
          rw [execEvents_cons_some env a es err2 hres] at h ⊢
          simp only [Option.some.injEq, Prod.mk.injEq] at h
          obtain ⟨he, herr⟩ := h
          subst he
          subst herr
          exact ⟨rfl, hres⟩
      | none =>
          rw [execEvents_cons_none env a es hres] at h ⊢
          obtain ⟨hd, hr⟩ := ih e err h
          refine ⟨?_, hr⟩
          simp only [List.cons_append, List.length_cons, List.drop_succ_cons]
          exact congrArg (List.cons a) hd

/-- If execution of a list whose single `monitor` event is last aborts at
some event, the `monitor` event is never issued: the aborting event is not
`monitor` (internal events cannot fail), and `monitor` cannot be among the
completed prefix because the one occurrence sits in the part after the
aborting event. -/
theorem abort_monitor_not_issued {Err : Type} (env : Event → Option Err) (l : List Event)
    (e : Event) (err : Err)
    (h : (execEvents env l).2 = some (e, err))
    (hlast : l.getLast? = some Event.monitor)
    (hcount : l.count Event.monitor = 1) :
    Event.monitor ∉ issuedEvents env l := by
  obtain ⟨hdec, hres⟩ := execEvents_abort_decomp env l e err h
  have hne : Event.monitor ≠ e := by
    intro he; rw [← he] at hres; simp [execRes] at hres
  have hiss : issuedEvents env l = (execEvents env l).1 ++ [e] := by
    simp [issuedEvents, h]
  rw [hiss]
  intro hm
  rcases List.mem_append.mp hm with hm | hm
  · have h1 : 0 < ((execEvents env l).1).count Event.monitor :=
      List.count_pos_iff.mpr hm
    have hlast2 : (e :: l.drop ((execEvents env l).1.length + 1)).getLast? =
        some Event.monitor := by
      rw [hdec] at hlast
      rwa [List.getLast?_append_of_ne_nil _ (by simp)] at hlast
    have h2 : 0 < (e :: l.drop ((execEvents env l).1.length + 1)).count Event.monitor :=
      List.count_pos_iff.mpr (List.mem_of_getLast?_eq_some hlast2)
    rw [hdec, List.count_append] at hcount
    omega
  · simp only [List.mem_singleton] at hm
    exact hne hm

/-- If an initial segment `tr` of `l` holds an element that is not among
the first `n` elements of `l`, then `tr` extends past position `n` and the
two lists agree up to position `n`. -/
theorem take_eq_take_of_mem {α : Type} (tr l : List α) (x : α) (n : Nat)
    (hpre : tr = l.take tr.length) (hx : x ∈ tr) (hnx : x ∉ l.take n) :
    n + 1 ≤ tr.length ∧ tr.take (n + 1) = l.take (n + 1) := by
  have hlen : n + 1 ≤ tr.length := by
    by_contra hc
    push_neg at hc
    have hle : tr.length ≤ n := Nat.lt_succ_iff.mp hc
    apply hnx
    have h2 : tr = (l.take n).take tr.length := by
      rw [List.take_take, Nat.min_eq_left hle, ← hpre]
    exact List.mem_of_mem_take (h2 ▸ hx)
  refine ⟨hlen, ?_⟩
  rw [hpre, List.take_take, Nat.min_eq_left hlen]

/-- A string with a fixed non-empty suffix differs from any string whose
final character differs from the suffix's final character. -/
theorem string_append_ne (s t u : String) (ht : t.data ≠ [])
    (h : t.data.getLast? ≠ u.data.getLast?) : s ++ t ≠ u := by
  intro he
  apply h
  have hd : s.data ++ t.data = u.data := by
    have h2 := congrArg String.data he
    rwa [String.data_append] at h2
  rw [← hd, List.getLast?_append_of_ne_nil _ ht]

/-- The initial monitor state satisfies the no-liveness invariant. -/
theorem monInv_init {Err : Type} (e : Option Err) : MonInv e (initMonState Err) :=
  ⟨rfl, rfl, rfl, Or.inl ⟨rfl, rfl, rfl⟩⟩

/-- One monitor step preserves the no-liveness invariant, provided the step
is not a poll observing the container running and any process exit carries
the error `e`. -/
theorem monStep_inv {Err : Type} (e : Option Err) (s : MonState Err) (a : MonAction Err)
    (hs : MonInv e s)
    (ha : ∀ x, a = MonAction.procExit x → x = e)
    (hb : a ≠ MonAction.pollCheck true) :
    MonInv e (monStep s a) := by
  obtain ⟨h1, h2, h3, h4⟩ := hs
  cases a with
  | procExit x =>
      have hx : x = e := ha x rfl
      subst hx
      rcases h4 with ⟨hp, hc, he⟩ | ⟨hp, hc, he⟩
      · simp [monStep, MonInv, wgDone, hp, hc, he, h1, h2, h3]
      · simp [monStep, MonInv, hp, hc, he, h1, h2, h3]
  | pollCheck b =>
      cases b with
      | true => exact absurd rfl hb
      | false =>
          by_cases ht : s.tickerCreated = true
          · simp only [monStep, h2, Bool.false_eq_true, if_false, ht, if_true]
            exact ⟨h1, h2, h3, h4⟩
          · simp only [monStep, h2, Bool.false_eq_true, if_false, ht]
            exact ⟨h1, rfl, h3, h4⟩

/-- The no-liveness invariant holds after any schedule in which no poll
observes the container running and every process exit carries `e`. -/
theorem monRun_inv_aux {Err : Type} (e : Option Err) :
    ∀ (tr : List (MonAction Err)) (s : MonState Err),
      MonInv e s →
      (∀ x, MonAction.procExit x ∈ tr → x = e) →
      MonAction.pollCheck true ∉ tr →
      MonInv e (tr.foldl monStep s) := by
  intro tr
  induction tr with
  | nil => intro s hs _ _; exact hs
  | cons a tr ih =>
      intro s hs ha hb
      simp only [List.foldl_cons]
      apply ih
      · refine monStep_inv e s a hs (fun x hax => ha x ?_) (fun haq => hb ?_)
        · rw [hax] at *; exact List.mem_cons_self _ _
        · rw [← haq]; exact List.mem_cons_self _ _
      · intro x hx; exact ha x (List.mem_cons_of_mem a hx)
      · intro hx; exact hb (List.mem_cons_of_mem a hx)

/-- No monitor step ever unsets the process-exited flag. -/
theorem monStep_procDone_mono {Err : Type} (s : MonState Err) (a : MonAction Err)
    (h : s.procDone = true) : (monStep s a).procDone = true := by
  cases a with
  | procExit x => simp [monStep, h]
  | pollCheck b =>
      simp only [monStep]
      by_cases h2 : s.pollResolved = true
      · simp [h2, h]
      · simp only [h2, if_false, Bool.false_eq_true]
        by_cases h3 : s.tickerCreated = true <;> cases b <;> simp [h2, h3, wgDone, h]

/-- The process-exited flag persists along any schedule. -/
theorem foldl_procDone_mono {Err : Type} :
    ∀ (tr : List (MonAction Err)) (s : MonState Err), s.procDone = true →
      (tr.foldl monStep s).procDone = true := by
  intro tr
  induction tr with
  | nil => intro s h; exact h
  | cons a tr ih =>
      intro s h
      simp only [List.foldl_cons]
      exact ih _ (monStep_procDone_mono s a h)

/-- A process-exit step always leaves the process-exited flag set. -/
theorem monStep_procExit_done {Err : Type} (s : MonState Err) (x : Option Err) :
    (monStep s (MonAction.procExit x)).procDone = true := by
  by_cases h : s.procDone = true <;> simp [monStep, h, wgDone]

/-- After any schedule containing a process exit, the process-exited flag
is set. -/
theorem monRun_procDone {Err : Type} :
    ∀ (tr : List (MonAction Err)) (s : MonState Err) (x : Option Err),
      MonAction.procExit x ∈ tr → (tr.foldl monStep s).procDone = true := by
  intro tr
  induction tr with
  | nil => intro s x h; simp at h
  | cons a tr ih =>
      intro s x h
      rcases List.mem_cons.mp h with h | h
      · simp only [List.foldl_cons, ← h]
        exact foldl_procDone_mono tr _ (monStep_procExit_done s x)
      · simp only [List.foldl_cons]
        exact ih _ x h

/-- A state in which the failed ticker loop idles (resolved wait group,
ticker created, loop neither broken nor stopped) is unchanged by further
polls that do not observe the container running. -/
theorem foldl_pollFalse_const {Err : Type} (s : MonState Err)
    (h : monStep s (MonAction.pollCheck false) = s) :
    ∀ n : Nat, (List.replicate n (MonAction.pollCheck false)).foldl monStep s = s := by
  intro n
  induction n with
  | zero => rfl
  | succ n ih => simp only [List.replicate_succ, List.foldl_cons, h, ih]

/-- C1: the claim says the completion monitor resolves exactly once and the
task that did not determine the outcome is a harmless no-op that can
neither overwrite nor corrupt the resolved outcome.  The code violates
this: after the process-wait goroutine resolves the monitor (wait-group
counter reaches 0 and the outcome reads as failure), a later liveness
observation flips the outcome to success and its `wg.Done` drives the
`sync.WaitGroup` counter to -1, which is a runtime panic in Go. -/
theorem claim_C1_second_signal_corrupts_resolution :
    (monStep (initMonState Nat) (MonAction.procExit none)).wgCounter = 0 ∧
    monOutcome (monStep (initMonState Nat) (MonAction.procExit none)) = ⟨false, none⟩ ∧
    (monStep (monStep (initMonState Nat) (MonAction.procExit none)) (MonAction.pollCheck true)).wgPanicked = true ∧
    (monStep (monStep (initMonState Nat) (MonAction.procExit none)) (MonAction.pollCheck true)).wgCounter = -1 ∧
    monOutcome (monStep (monStep (initMonState Nat) (MonAction.procExit none)) (MonAction.pollCheck true)) = ⟨true, none⟩ := by
  decide

/-- C2 counterexample: the claim states that `isRunning` returns true if
and only if the remote stat of the running-state marker succeeds (returns
a nil error).  At the concrete input where the stat succeeds for every
path, `isRunning` returns false, refuting the equivalence. -/
theorem claim_C2_counterexample :
    ¬ (isRunning "c1" (fun _ => (none : Option Nat)) = true ↔
       (fun _ => (none : Option Nat)) "/var/run/opencontainer/containers/c1" = none) := by
  decide

/-- C2 (amended): `isRunning containerId dst` returns true if and only if
the remote stat of `/var/run/opencontainer/containers/<containerId>` FAILS
(returns a non-nil error) — the polarity in the code is the reverse of the
one the claim states. -/
theorem claim_C2_amended_polarity {Err : Type} (containerId : String)
    (dstStat : String → Option Err) :
    isRunning containerId dstStat = true ↔
      dstStat ("/var/run/opencontainer/containers/" ++ containerId) ≠ none := by
  cases h : dstStat ("/var/run/opencontainer/containers/" ++ containerId) <;>
    simp [isRunning, h]

/-- Instance of the amended C2 statement at a concrete stat environment. -/
theorem claim_C2_amended_polarity_witness :
    isRunning "web" (fun _ => (some 3 : Option Nat)) = true ↔
      (fun _ => (some 3 : Option Nat)) ("/var/run/opencontainer/containers/" ++ "web") ≠ none :=
  claim_C2_amended_polarity "web" (fun _ => (some 3 : Option Nat))

/-- C3: the claim says that once the monitor has resolved, the polling
loop is stoppable and does not run forever afterwards.  The code violates
this: in the schedule where the immediate liveness check fails (the ticker
is created), the restore process then exits (the wait group is released,
resolving the monitor), and every subsequent poll keeps failing, the
ticker loop is never broken and `ticker.Stop()` never runs, no matter how
many further ticks happen. -/
theorem claim_C3_poll_loop_unstopped_after_resolution {Err : Type} (e : Option Err) (n : Nat) :
    (monRun (MonAction.pollCheck false :: MonAction.procExit e ::
        List.replicate n (MonAction.pollCheck false))).wgCounter = 0 ∧
    (monRun (MonAction.pollCheck false :: MonAction.procExit e ::
        List.replicate n (MonAction.pollCheck false))).tickerStopped = false ∧
    (monRun (MonAction.pollCheck false :: MonAction.procExit e ::
        List.replicate n (MonAction.pollCheck false))).pollResolved = false ∧
    (monRun (MonAction.pollCheck false :: MonAction.procExit e ::
        List.replicate n (MonAction.pollCheck false))).procDone = true := by
  have hrun : monRun (MonAction.pollCheck false :: MonAction.procExit e ::
      List.replicate n (MonAction.pollCheck false)) =
      (List.replicate n (MonAction.pollCheck false)).foldl monStep
        ⟨false, e, 0, false, true, true, false, false⟩ := rfl
  rw [hrun, foldl_pollFalse_const _ rfl n]
  exact ⟨rfl, rfl, rfl, rfl⟩

/-- Instance of the C3 schedule with a concrete error and three extra
ticks after resolution. -/
theorem claim_C3_witness :
    (monRun (MonAction.pollCheck false :: MonAction.procExit (some 5) ::
        List.replicate 3 (MonAction.pollCheck false))).wgCounter = 0 ∧
    (monRun (MonAction.pollCheck false :: MonAction.procExit (some (5 : Nat)) ::
        List.replicate 3 (MonAction.pollCheck false))).tickerStopped = false ∧
    (monRun (MonAction.pollCheck false :: MonAction.procExit (some (5 : Nat)) ::
        List.replicate 3 (MonAction.pollCheck false))).pollResolved = false ∧
    (monRun (MonAction.pollCheck false :: MonAction.procExit (some (5 : Nat)) ::
        List.replicate 3 (MonAction.pollCheck false))).procDone = true :=
  claim_C3_poll_loop_unstopped_after_resolution (some 5) 3

/-- C4: for every plan in pre-dump mode, if the generation-1 checkpoint
command is issued at all, then the first eight issued events are exactly
the generation-0 preparation, checkpoint, archive, transfer and unpack
steps, then the downtime-clock start, then the generation-1 checkpoint —
so all four generation-0 steps complete (successfully) before the
generation-1 checkpoint begins, and `migrateStart` is set exactly once,
after generation 0 has fully completed and immediately before the
generation-1 checkpoint. -/
theorem claim_C4_predump_ordering {Err : Type} (s d : String) (env : Event → Option Err)
    (h : Event.run (finalCheckpointCall (getContainerId s) (s ++ "/images/1") (s ++ "/images/0"))
           ∈ issuedEvents env (migrateEvents true s d)) :
    (issuedEvents env (migrateEvents true s d)).take 8 =
      [Event.run (prepareDirCall Host.src (s ++ "/images/0")),
       Event.run (checkpointCall Host.src (getContainerId s) (s ++ "/images/0") true),
       Event.run (prepareTarCall Host.src (s ++ "/predump.tar.gz") (s ++ "/images/0")),
       Event.run (prepareDirCall Host.dst (d ++ "/images/0")),
       Event.scp (s ++ "/predump.tar.gz") (d ++ "/images/0"),
       Event.run (unpackTarCall Host.dst (d ++ "/images/0/predump.tar.gz") (d ++ "/images/0")),
       Event.clockStart,
       Event.run (finalCheckpointCall (getContainerId s) (s ++ "/images/1") (s ++ "/images/0"))] ∧
    (∀ e ∈ (migrateEvents true s d).take 7, execRes env e = none) ∧
    (migrateEvents true s d).countP isClockStart = 1 := by
  have hnx : Event.run (finalCheckpointCall (getContainerId s) (s ++ "/images/1") (s ++ "/images/0"))
      ∉ (migrateEvents true s d).take 7 := by
    simp [migrateEvents, prepareDirCall, checkpointCall, checkpointArgs, prepareTarCall,
      unpackTarCall, finalCheckpointCall]
  have hpre := issuedEvents_take env (migrateEvents true s d)
  obtain ⟨hlen, htake⟩ := take_eq_take_of_mem _ _ _ 7 hpre h hnx
  refine ⟨?_, ?_, rfl⟩
  · rw [htake]; rfl
  · have hcomp := execEvents_fst_take env (migrateEvents true s d)
    have hclen : 7 ≤ (execEvents env (migrateEvents true s d)).1.length := by
      rcases issuedEvents_decomp env (migrateEvents true s d) with hd | hd
      · rw [hd] at hlen; omega
      · have hl := congrArg List.length hd
        simp only [List.length_append, List.length_cons, List.length_nil] at hl
        omega
    intro e he
    apply execEvents_fst_succeeds env (migrateEvents true s d)
    apply List.mem_of_mem_take (n := 7)
    rw [hcomp, List.take_take, Nat.min_eq_left hclen]
    exact he

/-- Instance of C4 at a concrete plan in which every remote command
succeeds. -/
theorem claim_C4_predump_ordering_witness :
    (issuedEvents (fun _ => (none : Option Nat)) (migrateEvents true "/c/app" "/d/app")).take 8 =
      [Event.run (prepareDirCall Host.src ("/c/app" ++ "/images/0")),
       Event.run (checkpointCall Host.src (getContainerId "/c/app") ("/c/app" ++ "/images/0") true),
       Event.run (prepareTarCall Host.src ("/c/app" ++ "/predump.tar.gz") ("/c/app" ++ "/images/0")),
       Event.run (prepareDirCall Host.dst ("/d/app" ++ "/images/0")),
       Event.scp ("/c/app" ++ "/predump.tar.gz") ("/d/app" ++ "/images/0"),
       Event.run (unpackTarCall Host.dst ("/d/app" ++ "/images/0/predump.tar.gz") ("/d/app" ++ "/images/0")),
       Event.clockStart,
       Event.run (finalCheckpointCall (getContainerId "/c/app") ("/c/app" ++ "/images/1") ("/c/app" ++ "/images/0"))] ∧
    (∀ e ∈ (migrateEvents true "/c/app" "/d/app").take 7,
      execRes (fun _ => (none : Option Nat)) e = none) ∧
    (migrateEvents true "/c/app" "/d/app").countP isClockStart = 1 :=
  claim_C4_predump_ordering "/c/app" "/d/app" (fun _ => none) (by decide)

/-- C5: for every plan without pre-dump, the event sequence holds exactly
one checkpoint invocation, one archive, one transfer, one unpack and one
downtime-clock start; the clock start (position 1) comes strictly before
the checkpoint command (position 2); and under every environment the
issued events follow this sequence in order (they are an initial segment
of it), so the clock is set strictly before the checkpoint is issued. -/
theorem claim_C5_single_pass (s d : String) :
    (migrateEvents false s d).countP isCheckpointRun = 1 ∧
    (migrateEvents false s d).countP isArchiveRun = 1 ∧
    (migrateEvents false s d).countP isTransfer = 1 ∧
    (migrateEvents false s d).countP isUnpackRun = 1 ∧
    (migrateEvents false s d).countP isClockStart = 1 ∧
    (migrateEvents false s d)[1]? = some Event.clockStart ∧
    (migrateEvents false s d)[2]? =
      some (Event.run (checkpointCall Host.src (getContainerId s) (s ++ "/images") false)) ∧
    (∀ (Err : Type) (env : Event → Option Err),
      issuedEvents env (migrateEvents false s d) =
        (migrateEvents false s d).take (issuedEvents env (migrateEvents false s d)).length) :=
  ⟨rfl, rfl, rfl, rfl, rfl, rfl, rfl, fun _ env => issuedEvents_take env _⟩

/-- Instance of C5 at a concrete plan. -/
theorem claim_C5_single_pass_witness :
    (migrateEvents false "/x/c1" "/y/c1").countP isCheckpointRun = 1 ∧
    (migrateEvents false "/x/c1" "/y/c1").countP isArchiveRun = 1 ∧
    (migrateEvents false "/x/c1" "/y/c1").countP isTransfer = 1 ∧
    (migrateEvents false "/x/c1" "/y/c1").countP isUnpackRun = 1 ∧
    (migrateEvents false "/x/c1" "/y/c1").countP isClockStart = 1 ∧
    (migrateEvents false "/x/c1" "/y/c1")[1]? = some Event.clockStart ∧
    (migrateEvents false "/x/c1" "/y/c1")[2]? =
      some (Event.run (checkpointCall Host.src (getContainerId "/x/c1") ("/x/c1" ++ "/images") false)) ∧
    (∀ (Err : Type) (env : Event → Option Err),
      issuedEvents env (migrateEvents false "/x/c1" "/y/c1") =
        (migrateEvents false "/x/c1" "/y/c1").take
          (issuedEvents env (migrateEvents false "/x/c1" "/y/c1")).length) :=
  claim_C5_single_pass "/x/c1" "/y/c1"

/-- C6: the pre-dump checkpoint carries `--pre-dump` and no
`--prev-images-dir`; the final checkpoint of pre-dump mode carries no
`--pre-dump` and carries `--prev-images-dir` immediately followed by the
generation-0 images path `<srcRoot>/images/0`; the single-pass checkpoint
carries neither flag.  (The container id is assumed not to collide with
the two flag strings.) -/
theorem claim_C6_checkpoint_flags (s : String)
    (h1 : getContainerId s ≠ "--pre-dump")
    (h2 : getContainerId s ≠ "--prev-images-dir") :
    "--pre-dump" ∈ checkpointArgs (getContainerId s) (s ++ "/images/0") true ∧
    "--prev-images-dir" ∉ checkpointArgs (getContainerId s) (s ++ "/images/0") true ∧
    "--pre-dump" ∉ (finalCheckpointCall (getContainerId s) (s ++ "/images/1") (s ++ "/images/0")).args ∧
    (finalCheckpointCall (getContainerId s) (s ++ "/images/1") (s ++ "/images/0")).args[6]? =
      some "--prev-images-dir" ∧
    (finalCheckpointCall (getContainerId s) (s ++ "/images/1") (s ++ "/images/0")).args[7]? =
      some (s ++ "/images/0") ∧
    "--pre-dump" ∉ checkpointArgs (getContainerId s) (s ++ "/images") false ∧
    "--prev-images-dir" ∉ checkpointArgs (getContainerId s) (s ++ "/images") false := by
  have k1 : s ++ "/images/0" ≠ "--pre-dump" :=
    string_append_ne s "/images/0" "--pre-dump" (by decide) (by decide)
  have k2 : s ++ "/images/0" ≠ "--prev-images-dir" :=
    string_append_ne s "/images/0" "--prev-images-dir" (by decide) (by decide)
  have k3 : s ++ "/images/1" ≠ "--pre-dump" :=
    string_append_ne s "/images/1" "--pre-dump" (by decide) (by decide)
  have k4 : s ++ "/images" ≠ "--pre-dump" :=
    string_append_ne s "/images" "--pre-dump" (by decide) (by decide)
  have k5 : s ++ "/images" ≠ "--prev-images-dir" :=
    string_append_ne s "/images" "--prev-images-dir" (by decide) (by decide)
  refine ⟨?_, ?_, ?_, rfl, rfl, ?_, ?_⟩ <;>
    simp [checkpointArgs, finalCheckpointCall, h1, h2, k1, k2, k3, k4, k5,
      Ne.symm h1, Ne.symm h2, Ne.symm k1, Ne.symm k2, Ne.symm k3, Ne.symm k4, Ne.symm k5]

/-- Instance of C6 at a concrete source path. -/
theorem claim_C6_checkpoint_flags_witness :
    "--pre-dump" ∈ checkpointArgs (getContainerId "/containers/web") ("/containers/web" ++ "/images/0") true ∧
    "--prev-images-dir" ∉ checkpointArgs (getContainerId "/containers/web") ("/containers/web" ++ "/images/0") true ∧
    "--pre-dump" ∉ (finalCheckpointCall (getContainerId "/containers/web") ("/containers/web" ++ "/images/1") ("/containers/web" ++ "/images/0")).args ∧
    (finalCheckpointCall (getContainerId "/containers/web") ("/containers/web" ++ "/images/1") ("/containers/web" ++ "/images/0")).args[6]? =
      some "--prev-images-dir" ∧
    (finalCheckpointCall (getContainerId "/containers/web") ("/containers/web" ++ "/images/1") ("/containers/web" ++ "/images/0")).args[7]? =
      some ("/containers/web" ++ "/images/0") ∧
    "--pre-dump" ∉ checkpointArgs (getContainerId "/containers/web") ("/containers/web" ++ "/images") false ∧
    "--prev-images-dir" ∉ checkpointArgs (getContainerId "/containers/web") ("/containers/web" ++ "/images") false :=
  claim_C6_checkpoint_flags "/containers/web" (by decide) (by decide)

/-- C7: every pipeline step and the restore launch is fatal on first
error.  For both migration modes, whenever execution aborts at some event
`e` with error `err`, then: `e` itself failed with exactly `err` (the
migration aborts with that step's error); every event issued before `e`
completed successfully; the plan decomposes as the completed prefix, then
`e`, then the steps that never ran — so no step after the first failure is
ever issued (in particular, a generation-0 failure means generation 1
never starts); and the CompletionMonitor section is never entered. -/
theorem claim_C7_fail_fast {Err : Type} (preDump : Bool) (s d : String)
    (env : Event → Option Err) (e : Event) (err : Err)
    (h : (execEvents env (migrateEvents preDump s d)).2 = some (e, err)) :
    execRes env e = some err ∧
    (∀ x ∈ (execEvents env (migrateEvents preDump s d)).1, execRes env x = none) ∧
    migrateEvents preDump s d =
      (execEvents env (migrateEvents preDump s d)).1 ++
        e :: (migrateEvents preDump s d).drop
          ((execEvents env (migrateEvents preDump s d)).1.length + 1) ∧
    issuedEvents env (migrateEvents preDump s d) =
      (execEvents env (migrateEvents preDump s d)).1 ++ [e] ∧
    Event.monitor ∉ issuedEvents env (migrateEvents preDump s d) := by
  obtain ⟨hdec, hres⟩ := execEvents_abort_decomp env (migrateEvents preDump s d) e err h
  refine ⟨hres, execEvents_fst_succeeds env _, hdec, by simp [issuedEvents, h], ?_⟩
  apply abort_monitor_not_issued env _ e err h
  · cases preDump <;> rfl
  · cases preDump <;> rfl

/-- Instance of C7 at the spec's scenario: a pre-dump plan whose
generation-0 transfer fails. -/
theorem claim_C7_fail_fast_witness :
    execRes (fun x => if isTransfer x then some 0 else none)
      (Event.scp ("/a/c2" ++ "/predump.tar.gz") ("/b/c2" ++ "/images/0")) = some (0 : Nat) ∧
    (∀ x ∈ (execEvents (fun x => if isTransfer x then some 0 else none)
        (migrateEvents true "/a/c2" "/b/c2")).1,
      execRes (fun x => if isTransfer x then some 0 else none) x = none) ∧
    migrateEvents true "/a/c2" "/b/c2" =
      (execEvents (fun x => if isTransfer x then some 0 else none)
          (migrateEvents true "/a/c2" "/b/c2")).1 ++
        Event.scp ("/a/c2" ++ "/predump.tar.gz") ("/b/c2" ++ "/images/0") ::
          (migrateEvents true "/a/c2" "/b/c2").drop
            ((execEvents (fun x => if isTransfer x then some 0 else none)
                (migrateEvents true "/a/c2" "/b/c2")).1.length + 1) ∧
    issuedEvents (fun x => if isTransfer x then some 0 else none)
        (migrateEvents true "/a/c2" "/b/c2") =
      (execEvents (fun x => if isTransfer x then some 0 else none)
          (migrateEvents true "/a/c2" "/b/c2")).1 ++
        [Event.scp ("/a/c2" ++ "/predump.tar.gz") ("/b/c2" ++ "/images/0")] ∧
    Event.monitor ∉ issuedEvents (fun x => if isTransfer x then some 0 else none)
        (migrateEvents true "/a/c2" "/b/c2") :=
  claim_C7_fail_fast true "/a/c2" "/b/c2" (fun x => if isTransfer x then some 0 else none)
    (Event.scp ("/a/c2" ++ "/predump.tar.gz") ("/b/c2" ++ "/images/0")) 0 (by decide)

/-- C8: along any monitor schedule in which the liveness poll never
observes the container running and the restore process exits with a
non-nil error, the monitor resolves to failure and the reported cause is
exactly the error returned by `restoreCmd.Wait()`; the wait group is
released exactly once (counter 0, no panic). -/
theorem claim_C8_process_error_failure {Err : Type} (err : Err) (tr : List (MonAction Err))
    (h1 : MonAction.procExit (some err) ∈ tr)
    (h2 : ∀ x, MonAction.procExit x ∈ tr → x = some err)
    (h3 : MonAction.pollCheck true ∉ tr) :
    monOutcome (monRun tr) = ⟨false, some err⟩ ∧
    (monRun tr).wgCounter = 0 ∧ (monRun tr).wgPanicked = false := by
  have hinv := monRun_inv_aux (some err) tr (initMonState Err) (monInv_init (some err)) h2 h3
  have hdone := monRun_procDone tr (initMonState Err) (some err) h1
  rw [monRun]
  obtain ⟨ha, hb, hc, hd⟩ := hinv
  rcases hd with ⟨hp, hcnt, herr⟩ | ⟨hp, hcnt, herr⟩
  · rw [hdone] at hp; exact absurd hp (by simp)
  · refine ⟨?_, hcnt, hc⟩
    rw [monOutcome, ha, herr]
    simp

/-- Instance of C8: one failed poll, then the process exits with error 7. -/
theorem claim_C8_process_error_failure_witness :
    monOutcome (monRun [MonAction.pollCheck false, MonAction.procExit (some 7)]) =
      ⟨false, some (7 : Nat)⟩ ∧
    (monRun [MonAction.pollCheck false, MonAction.procExit (some (7 : Nat))]).wgCounter = 0 ∧
    (monRun [MonAction.pollCheck false, MonAction.procExit (some (7 : Nat))]).wgPanicked = false :=
  claim_C8_process_error_failure 7 [MonAction.pollCheck false, MonAction.procExit (some 7)]
    (by decide) (by intro x hx; simp at hx; exact hx) (by decide)

/-- C9: if the very first (immediate) liveness check already observes the
container running, the monitor resolves to success — the wait-group
counter reaches 0 and the outcome reads success — while the ticker has not
been created and without the restore process having exited. -/
theorem claim_C9_immediate_liveness {Err : Type} :
    (monStep (initMonState Err) (MonAction.pollCheck true)).restoreSucceed = true ∧
    (monStep (initMonState Err) (MonAction.pollCheck true)).wgCounter = 0 ∧
    (monStep (initMonState Err) (MonAction.pollCheck true)).tickerCreated = false ∧
    (monStep (initMonState Err) (MonAction.pollCheck true)).procDone = false ∧
    monOutcome (monStep (initMonState Err) (MonAction.pollCheck true)) = ⟨true, none⟩ :=
  ⟨rfl, rfl, rfl, rfl, rfl⟩

/-- Instance of C9 with a concrete error type. -/
theorem claim_C9_immediate_liveness_witness :
    (monStep (initMonState Nat) (MonAction.pollCheck true)).restoreSucceed = true ∧
    (monStep (initMonState Nat) (MonAction.pollCheck true)).wgCounter = 0 ∧
    (monStep (initMonState Nat) (MonAction.pollCheck true)).tickerCreated = false ∧
    (monStep (initMonState Nat) (MonAction.pollCheck true)).procDone = false ∧
    monOutcome (monStep (initMonState Nat) (MonAction.pollCheck true)) = ⟨true, none⟩ :=
  @claim_C9_immediate_liveness Nat

/-- C10: along any monitor schedule in which the liveness poll never
observes the container running and the restore process exits cleanly
(`Wait()` returns nil), the monitor still resolves to failure, with a nil
cause — a clean process exit alone never yields success, because only a
liveness observation sets `restoreSucceed`. -/
theorem claim_C10_clean_exit_failure {Err : Type} (tr : List (MonAction Err))
    (h1 : MonAction.procExit none ∈ tr)
    (h2 : ∀ x, MonAction.procExit x ∈ tr → x = none)
    (h3 : MonAction.pollCheck true ∉ tr) :
    (monRun tr).restoreSucceed = false ∧
    monOutcome (monRun tr) = ⟨false, none⟩ ∧
    (monRun tr).wgCounter = 0 := by
  have hinv := monRun_inv_aux none tr (initMonState Err) (monInv_init none) h2 h3
  have hdone := monRun_procDone tr (initMonState Err) none h1
  rw [monRun]
  obtain ⟨ha, hb, hc, hd⟩ := hinv
  rcases hd with ⟨hp, hcnt, herr⟩ | ⟨hp, hcnt, herr⟩
  · rw [hdone] at hp; exact absurd hp (by simp)
  · refine ⟨ha, ?_, hcnt⟩
    rw [monOutcome, ha, herr]
    simp

/-- Instance of C10: the process exits cleanly before any liveness
observation. -/
theorem claim_C10_clean_exit_failure_witness :
    (monRun [MonAction.procExit (none : Option Nat)]).restoreSucceed = false ∧
    monOutcome (monRun [MonAction.procExit (none : Option Nat)]) = ⟨false, none⟩ ∧
    (monRun [MonAction.procExit (none : Option Nat)]).wgCounter = 0 :=
  claim_C10_clean_exit_failure [MonAction.procExit (none : Option Nat)]
    (by decide) (by intro x hx; simp at hx; exact hx) (by decide)

end Cmt


